import Mathlib

/-!
Shallow embedding of `time_series.py` from the pyDAmonitor repository.

The module builds omf/oma time-series plots from hourly GSI diagnostic
files.  Four functions are embedded: `plot_time_series` (orchestrator),
`get_gsi_fps` (path builder), `get_omfs` (series extractor) and
`make_plot` (plotter).

Modelling choices:
* hour-resolution timestamps are a `DateTime` structure; the hourly range
  expansion (`pd.date_range(start, end, freq='H')`) is `dateRange`;
* floating-point series cells are `Option ℚ`, with `none` standing for
  the not-a-number missing-data marker (`np.zeros` cells overwritten by
  `None` / empty-mean results in the source);
* the external diagnostic reader (`diags.Conventional(...).get_data()`,
  repository code not present under `src/`) is an abstract function
  `FS : String → ReadResult` supplied as a parameter: a call either
  raises file-not-found, raises some other error, or returns rows;
* file reads and `print` calls are threaded explicitly as lists, so that
  "no filesystem access happened" and "the error was logged" are
  provable statements;
* the plotting surface is a command trace (`PlotCmd` list); a Python
  exception in the plot stage is an `Except.error`.
-/

namespace PyDAmonitor

/-- An hour-resolution timestamp (what `pandas`/`datetime` values carry
at the resolution this module uses). -/
structure DateTime where
  year : Nat
  month : Nat
  day : Nat
  hour : Nat
deriving DecidableEq, Repr

/-- Gregorian leap-year rule, as used by the `datetime`/`pandas` calendar. -/
def isLeapYear (y : Nat) : Bool :=
  (y % 4 == 0 && y % 100 != 0) || y % 400 == 0

/-- Days in a Gregorian month. -/
def daysInMonth (y m : Nat) : Nat :=
  if m = 2 then (if isLeapYear y then 29 else 28)
  else if m = 4 ∨ m = 6 ∨ m = 9 ∨ m = 11 then 30
  else 31

/-- The next hour on the calendar (the `freq='H'` step of
`pd.date_range`). -/
def succHour (dt : DateTime) : DateTime :=
  if dt.hour + 1 ≤ 23 then ⟨dt.year, dt.month, dt.day, dt.hour + 1⟩
  else if dt.day + 1 ≤ daysInMonth dt.year dt.month then ⟨dt.year, dt.month, dt.day + 1, 0⟩
  else if dt.month + 1 ≤ 12 then ⟨dt.year, dt.month + 1, 1, 0⟩
  else ⟨dt.year + 1, 1, 1, 0⟩

/-- Leap years strictly below `y` (year 0 counted as leap, proleptic
Gregorian). -/
def leapsBelow (y : Nat) : Nat :=
  (y + 3) / 4 - (y + 99) / 100 + (y + 399) / 400

/-- Days on the proleptic Gregorian calendar before January 1 of year `y`. -/
def daysBeforeYear (y : Nat) : Nat :=
  365 * y + leapsBelow y

/-- Days of year `y` that precede month `m`. -/
def daysBeforeMonth (y m : Nat) : Nat :=
  (List.range (m - 1)).foldl (fun acc i => acc + daysInMonth y (i + 1)) 0

/-- Absolute day number of a timestamp's date. -/
def toDays (dt : DateTime) : Nat :=
  daysBeforeYear dt.year + daysBeforeMonth dt.year dt.month + (dt.day - 1)

/-- Absolute hour number of a timestamp; the quantity `pd.date_range`
counts when expanding an hourly range. -/
def toHours (dt : DateTime) : Nat :=
  24 * toDays dt + dt.hour

/-- `pd.date_range(start=s, end=f, freq='H')`: the hourly timestamps from
`s` to `f` inclusive, empty when `s` is after `f`. -/
def dateRange (s f : DateTime) : List DateTime :=
  if toHours s ≤ toHours f then
    (List.range (toHours f - toHours s + 1)).map (fun i => succHour^[i] s)
  else []

/-- The number of hourly timestamps in the inclusive range `[s, f]`
(meaningful when `toHours s ≤ toHours f`). -/
def numHourly (s f : DateTime) : Nat :=
  toHours f - toHours s + 1

/-- Exactly `w` decimal digit characters of `n` (zero padded), most
significant first: the fixed-width fields of `strftime('%Y%m%d%H')`. -/
def digitsPad (w n : Nat) : List Char :=
  ((List.range w).reverse).map (fun i => Char.ofNat (48 + n / 10 ^ i % 10))

/-- `dt.strftime('%Y%m%d%H')` as a character list (4-digit year, 2-digit
month, day and hour). -/
def fmtYMDH (dt : DateTime) : List Char :=
  digitsPad 4 dt.year ++ digitsPad 2 dt.month ++ digitsPad 2 dt.day ++ digitsPad 2 dt.hour

/-- Python's `s[-n:]` slice on a character list (for `l.length ≥ n`). -/
def takeLast (n : Nat) (l : List Char) : List Char :=
  l.drop (l.length - n)

/-- `get_gsi_fps`: builds one candidate diag-file path per timestamp, in
timestamp order, from the fixed template
`path/RTMA_CONUS.YYYYMMDD/HH/diag_conv_var_anlges.YYYYMMDDHH.nc4.gz`.
Takes no filesystem argument: by construction it performs no filesystem
access and is a pure function of its inputs. -/
def get_gsi_fps (path var anl_ges : String) (date_times : List DateTime) : List String :=
  date_times.map (fun dt =>
    let s := fmtYMDH dt
    let day_str := String.mk (s.take 8)
    let hour_str := String.mk (takeLast 2 s)
    path ++ "/RTMA_CONUS." ++ day_str ++ "/" ++ hour_str ++ "/diag_conv_" ++ var
      ++ "_" ++ anl_ges ++ "." ++ day_str ++ hour_str ++ ".nc4.gz")

/-- The path template of the specification, instantiated with a
timestamp's 8-digit date and 2-digit hour.  Stated from the spec's words,
to be compared with `get_gsi_fps`. -/
def specDiagPath (root var anl_ges : String) (dt : DateTime) : String :=
  let dd := String.mk (digitsPad 4 dt.year ++ digitsPad 2 dt.month ++ digitsPad 2 dt.day)
  let hh := String.mk (digitsPad 2 dt.hour)
  root ++ "/RTMA_CONUS." ++ dd ++ "/" ++ hh ++ "/diag_conv_" ++ var
    ++ "_" ++ anl_ges ++ "." ++ dd ++ hh ++ ".nc4.gz"

/-- One observation record row, as returned by the diagnostic reader:
station identifier, BUFR observation type, adjusted omf/oma value
(modelled as an exact rational). -/
structure Row where
  station_id : String
  obs_type : Int
  omf_adjusted : ℚ
deriving DecidableEq, Repr

/-- Outcome of one call to the diagnostic reader on a path. -/
inductive ReadResult where
  | notFound
  | failed (msg : String)
  | ok (rows : List Row)
deriving DecidableEq, Repr

/-- Modelled from the spec: the diagnostic reader collaborator
(`diags.Conventional(fp).get_data()`, repository code not present under
`src/`).  A filesystem-and-reader oracle: for each path the reader either
raises file-not-found, raises some other error, or returns the file's
observation rows. -/
def FS : Type := String → ReadResult

/-- The Python exceptions this module can raise, as a taxonomy.
`parseError` models the `ValueError` of `datetime.strptime` on a
malformed time string; the string-normalization branch itself is not
modelled (timestamps enter the embedding already normalized), so this
constructor is never produced here. -/
inductive PyError where
  | invalidArgument (mode : String)
  | parseError (s : String)
  | readError (msg : String)
  | unknownVariable (var : String)
  | zeroSizeReduction
deriving DecidableEq, Repr

/-- Modelled from the spec: the repository's `filter_df` collaborator
(module `filter_df`, not present under `src/`).  Keeps the rows matching
the station-identifier filter and the observation-type filter (both
ANDed; an absent filter imposes no restriction on that dimension) and
returns the adjusted-omf column in row order. -/
def filter_df (rows : List Row) (station_ids : Option (List String))
    (obs_types : Option (List Int)) : List ℚ :=
  (rows.filter (fun r =>
    (match station_ids with
     | none => true
     | some l => l.contains r.station_id) &&
    (match obs_types with
     | none => true
     | some l => l.contains r.obs_type))).map Row.omf_adjusted

/-- `pandas` `Series.mean()`: the arithmetic mean of the values, and the
not-a-number marker (here `none`) on an empty column. -/
def seriesMean (vals : List ℚ) : Option ℚ :=
  if vals = [] then none else some (vals.sum / (vals.length : ℚ))

deriving instance DecidableEq for Except

/-- Result of one run of the series extractor: the paths whose read was
attempted (in order), the diagnostic messages printed, and either the
extracted series or the propagated error. -/
structure ExtractOut where
  reads : List String
  prints : List String
  result : Except PyError (List (Option ℚ))
deriving DecidableEq, Repr

/-- `get_omfs`: reads each candidate path in order; file-not-found
records the missing-data marker and continues; any other reader error is
printed and re-raised, aborting the extraction; a successful read
records the mean of the filtered adjusted-omf column (the marker when
the filtered column is empty, after printing a notice). -/
def get_omfs (fs : FS) (fps : List String) (station_ids : Option (List String))
    (obs_types : Option (List Int)) : ExtractOut :=
  match fps with
  | [] => ⟨[], [], .ok []⟩
  | fp :: rest =>
    match fs fp with
    | .notFound =>
      let o := get_omfs fs rest station_ids obs_types
      ⟨fp :: o.reads, o.prints, o.result.map (fun l => none :: l)⟩
    | .failed msg =>
      ⟨[fp], ["Unknown error occurred: " ++ msg], .error (.readError msg)⟩
    | .ok rows =>
      let vals := filter_df rows station_ids obs_types
      let notice := if vals.length = 0 then ["Filter combination yields no results"] else []
      let o := get_omfs fs rest station_ids obs_types
      ⟨fp :: o.reads, notice ++ o.prints, o.result.map (fun l => seriesMean vals :: l)⟩

/-- The value `get_omfs` records for one readable-or-missing path (used
to state what a successful extraction returns; the `failed` case never
occurs on a successful run). -/
def omf_step (fs : FS) (station_ids : Option (List String))
    (obs_types : Option (List Int)) (fp : String) : Option ℚ :=
  match fs fp with
  | .notFound => none
  | .failed _ => none
  | .ok rows => seriesMean (filter_df rows station_ids obs_types)

/-- One call into the plotting surface (`matplotlib.pyplot`), recorded
as trace data instead of rendered. -/
inductive PlotCmd where
  | figure (w h : Nat)
  | line (xs : List DateTime) (ys : List (Option ℚ)) (color : Char) (label : String)
  | scatter (xs : List DateTime) (ys : List ℚ) (color : String) (label : String)
  | axhline (y : ℚ) (color : String) (linestyle : String) (label : String)
  | ylim (lo hi : Option ℚ)
  | ylabel (text : String)
  | title (text : String)
  | grid
  | legend
  | xticksRotation (deg : Nat)
  | showFig
deriving DecidableEq, Repr

/-- The fixed six-color palette of `make_plot`. -/
def colors : List Char := ['b', 'g', 'c', 'm', 'y', 'k']

/-- The `units_mapping` dict of `make_plot`: display name and unit label
for the known variables (the source's spelling is kept). -/
def units_mapping (var : String) : Option (String × String) :=
  if var = "t" then some ("Temperature", "Degrees Fahrenheit")
  else if var = "ps" then some ("Surface Pressure", "Pascals")
  else if var = "q" then some ("Specfic Humidity", "G Water Vapor per KG of Air")
  else none

/-- Maximum of a list of rationals, `none` on the empty list
(the non-NaN part of `np.nanmax`). -/
def nanMaxVals (l : List ℚ) : Option ℚ :=
  l.foldl (fun acc x =>
    match acc with
    | none => some x
    | some m => some (max m x)) none

/-- `np.nanmax` on a float array with NaN cells modelled as `none`:
raises on a zero-size array, ignores NaN cells, and returns NaN when
every cell is NaN. -/
def np_nanmax (l : List (Option ℚ)) : Except PyError (Option ℚ) :=
  if l.isEmpty then .error .zeroSizeReduction
  else .ok (nanMaxVals (l.filterMap id))

/-- Python's two-argument `max` on possibly-NaN floats: returns the
second argument only when it compares greater, so an accumulated NaN in
the first argument is kept. -/
def pyMax (a b : Option ℚ) : Option ℚ :=
  match a, b with
  | some x, some y => some (max x y)
  | none, _ => none
  | some x, none => some x

/-- `times[nan_indices]`: the timestamps at the positions whose data
cell is the missing-data marker. -/
def nan_times (times : List DateTime) (data : List (Option ℚ)) : List DateTime :=
  (times.zip data).filterMap (fun p => if p.2.isNone then some p.1 else none)

/-- `sum(nan_indices)`: the number of missing-data cells of a series. -/
def countNaN (data : List (Option ℚ)) : Nat :=
  data.countP (fun v => v.isNone)

/-- The per-series loop of `make_plot`: one line trace and one
NaN-highlight scatter per series, while accumulating the color index and
the running maximum absolute value `max_val`. -/
def plotSeriesLoop (times : List DateTime) (ser : List (String × List (Option ℚ)))
    (color_ind : Nat) (max_val : Option ℚ) : Except PyError (List PlotCmd × Option ℚ) :=
  match ser with
  | [] => .ok ([], max_val)
  | (key, data) :: rest =>
    let lineCmd := PlotCmd.line times data (colors.getD color_ind 'b') key
    let scatterCmd := PlotCmd.scatter (nan_times times data)
      (List.replicate (countNaN data) 0) "red" "No Data"
    match np_nanmax (data.map (Option.map (fun x => |x|))) with
    | .error e => .error e
    | .ok nm =>
      let max_val2 := pyMax (nm.map (fun x => x * (11 / 10))) max_val
      match plotSeriesLoop times rest ((color_ind + 1) % colors.length) max_val2 with
      | .error e => .error e
      | .ok (cmds, mv) => .ok (lineCmd :: scatterCmd :: cmds, mv)

/-- `make_plot`: resolves the variable's display metadata (an absent key
is the unchecked-lookup failure of the source, surfaced as
`unknownVariable`), then draws every series with its NaN highlights, the
zero reference line, the symmetric vertical bounds, labels, grid,
legend, tick rotation, and shows the figure. -/
def make_plot (series : List (String × List (Option ℚ))) (times : List DateTime)
    (var : String) : Except PyError (List PlotCmd) :=
  match units_mapping var with
  | none => .error (.unknownVariable var)
  | some (var_name, var_units) =>
    match plotSeriesLoop times series 0 (some 0) with
    | .error e => .error e
    | .ok (cmds, max_val) =>
      .ok ([PlotCmd.figure 10 5] ++ cmds ++
        [PlotCmd.axhline 0 "r" "--" "Zero",
         PlotCmd.ylim (max_val.map (fun x => -x)) max_val,
         PlotCmd.ylabel var_units,
         PlotCmd.title (var_name ++ " DA Time Series Plot"),
         PlotCmd.grid, PlotCmd.legend, PlotCmd.xticksRotation 45, PlotCmd.showFig])

/-- The series-dictionary construction of `plot_time_series`: the `ges`
block runs first when requested, then the `anl` block, each building
paths and extracting its series; insertion order of the labels is kept.
Returns attempted reads, printed messages, and the labelled series or
the propagated extraction error. -/
def buildSeries (fs : FS) (path var anl_ges : String) (date_times : List DateTime)
    (station_ids : Option (List String)) (obs_types : Option (List Int)) :
    List String × List String × Except PyError (List (String × List (Option ℚ))) :=
  if anl_ges = "both" ∨ anl_ges = "ges" then
    let o := get_omfs fs (get_gsi_fps path var "ges" date_times) station_ids obs_types
    match o.result with
    | .error e => (o.reads, o.prints, .error e)
    | .ok g =>
      if anl_ges = "both" ∨ anl_ges = "anl" then
        let o2 := get_omfs fs (get_gsi_fps path var "anl" date_times) station_ids obs_types
        match o2.result with
        | .error e => (o.reads ++ o2.reads, o.prints ++ o2.prints, .error e)
        | .ok a => (o.reads ++ o2.reads, o.prints ++ o2.prints, .ok [("ges", g), ("anl", a)])
      else (o.reads, o.prints, .ok [("ges", g)])
  else
    if anl_ges = "both" ∨ anl_ges = "anl" then
      let o2 := get_omfs fs (get_gsi_fps path var "anl" date_times) station_ids obs_types
      match o2.result with
      | .error e => (o2.reads, o2.prints, .error e)
      | .ok a => (o2.reads, o2.prints, .ok [("anl", a)])
    else ([], [], .ok [])

/-- Result of one top-level call: attempted reads, printed messages, and
either the plot trace or the raised error. -/
structure RunOut where
  reads : List String
  prints : List String
  result : Except PyError (List PlotCmd)
deriving DecidableEq, Repr

/-- `plot_time_series`: validates the mode first (raising on anything
outside anl/ges/both before any further work), expands the hourly
range, builds the requested series, and plots them.  Timestamps enter
already normalized; the `strptime` branch for string inputs is not
modelled. -/
def plot_time_series (fs : FS) (path var anl_ges : String) (s_time f_time : DateTime)
    (station_ids : Option (List String)) (obs_types : Option (List Int)) : RunOut :=
  if anl_ges = "anl" ∨ anl_ges = "ges" ∨ anl_ges = "both" then
    let date_times := dateRange s_time f_time
    match buildSeries fs path var anl_ges date_times station_ids obs_types with
    | (r, p, .error e) => ⟨r, p, .error e⟩
    | (r, p, .ok ser) =>
      match make_plot ser date_times var with
      | .error e => ⟨r, p, .error e⟩
      | .ok cmds => ⟨r, p, .ok cmds⟩
  else ⟨[], [], .error (.invalidArgument anl_ges)⟩

/-! ## Helper lemmas -/

lemma digitsPad_length (w n : Nat) : (digitsPad w n).length = w := by
  simp [digitsPad]

lemma fmt_take8 (dt : DateTime) :
    (fmtYMDH dt).take 8 = digitsPad 4 dt.year ++ digitsPad 2 dt.month ++ digitsPad 2 dt.day := by
  simp [fmtYMDH, List.take_append_eq_append_take, digitsPad_length,
    List.take_of_length_le, List.append_assoc]

lemma fmt_takeLast2 (dt : DateTime) :
    takeLast 2 (fmtYMDH dt) = digitsPad 2 dt.hour := by
  simp [takeLast, fmtYMDH, List.drop_append_eq_append_drop, digitsPad_length,
    List.drop_eq_nil_of_le, List.append_assoc]

lemma get_gsi_fps_length (path var ag : String) (ts : List DateTime) :
    (get_gsi_fps path var ag ts).length = ts.length := by
  simp [get_gsi_fps]

lemma dateRange_length (s f : DateTime) (h : toHours s ≤ toHours f) :
    (dateRange s f).length = numHourly s f := by
  simp [dateRange, h, numHourly]

/-- On a run with no unexpected reader error, `get_omfs` attempts every
path in order and returns one cell per path, each given by `omf_step`. -/
lemma get_omfs_ok (fs : FS) (fps : List String) (sids : Option (List String))
    (ots : Option (List Int)) (h : ∀ fp ∈ fps, ∀ m, fs fp ≠ .failed m) :
    (get_omfs fs fps sids ots).reads = fps ∧
    (get_omfs fs fps sids ots).result = .ok (fps.map (omf_step fs sids ots)) := by
  induction fps with
  | nil => simp [get_omfs]
  | cons fp rest ih =>
    have hfp := h fp (by simp)
    have hrest : ∀ q ∈ rest, ∀ m, fs q ≠ .failed m := fun q hq => h q (by simp [hq])
    obtain ⟨ih1, ih2⟩ := ih hrest
    cases hcase : fs fp with
    | notFound => simp [get_omfs, hcase, ih1, ih2, omf_step, Except.map]
    | failed m => exact absurd hcase (hfp m)
    | ok rows => simp [get_omfs, hcase, ih1, ih2, omf_step, Except.map]

/-! ## Claim theorems -/

/-- C5: the path builder returns one path per timestamp, in order, each
exactly the spec's template instantiated with that timestamp's 8-digit
date and 2-digit hour; it is a pure function of its arguments (it takes
no filesystem oracle, so no filesystem access can occur). -/
theorem path_builder_matches_template (root var anl_ges : String) (ts : List DateTime) :
    (get_gsi_fps root var anl_ges ts).length = ts.length ∧
    ∀ i, (hi : i < ts.length) →
      (get_gsi_fps root var anl_ges ts).get? i =
        some (specDiagPath root var anl_ges ts[i]) := by
  constructor
  · simp [get_gsi_fps]
  · intro i hi
    simp [get_gsi_fps, List.getElem?_map, List.getElem?_eq_getElem hi, specDiagPath,
      fmt_take8, fmt_takeLast2]

theorem path_builder_matches_template_witness :
    (0 : Nat) < 2 ∧
    (get_gsi_fps "/data" "t" "ges" [⟨2024, 1, 31, 23⟩, ⟨2024, 2, 1, 0⟩]).get? 0 =
      some (specDiagPath "/data" "t" "ges" ⟨2024, 1, 31, 23⟩) :=
  ⟨by decide,
    (path_builder_matches_template "/data" "t" "ges"
      [⟨2024, 1, 31, 23⟩, ⟨2024, 2, 1, 0⟩]).2 0 (by decide)⟩

/-- C2: a file-not-found at some position records the missing-data
marker (`none`) there and the extractor continues through every
subsequent position — every path is read and the run returns a full
series rather than aborting.  (The run-wide no-unexpected-error
hypothesis rules out the separate fatal error class of C6.) -/
theorem file_not_found_records_marker_and_continues
    (fs : FS) (fps : List String) (sids : Option (List String)) (ots : Option (List Int))
    (i : Nat) (hi : i < fps.length)
    (hfs : ∀ p m, fs p ≠ .failed m)
    (hnf : fs fps[i] = .notFound) :
    (get_omfs fs fps sids ots).reads = fps ∧
    ∃ l, (get_omfs fs fps sids ots).result = .ok l ∧
      l.length = fps.length ∧ l.get? i = some none := by
  obtain ⟨hr, ho⟩ := get_omfs_ok fs fps sids ots (fun fp _ m => hfs fp m)
  refine ⟨hr, fps.map (omf_step fs sids ots), ho, by simp, ?_⟩
  simp [List.getElem?_map, List.getElem?_eq_getElem hi, omf_step, hnf]

theorem file_not_found_records_marker_and_continues_witness :
    (get_omfs (fun _ => .notFound) ["a", "b"] none none).reads = ["a", "b"] ∧
    ∃ l, (get_omfs (fun _ => .notFound) ["a", "b"] none none).result = .ok l ∧
      l.length = 2 ∧ l.get? 0 = some none :=
  file_not_found_records_marker_and_continues (fun _ => .notFound) ["a", "b"] none none 0
    (by decide) (fun p m => by simp) (by simp)

/-- C3: a successfully read file whose rows are all excluded by the
filters records the missing-data marker (`none`) at its position — not
zero — and the run does not raise: the mean of zero filtered rows is a
missing marker, never an error. -/
theorem empty_filter_records_marker_not_zero
    (fs : FS) (fps : List String) (sids : Option (List String)) (ots : Option (List Int))
    (i : Nat) (rows : List Row) (hi : i < fps.length)
    (hfs : ∀ p m, fs p ≠ .failed m)
    (hok : fs fps[i] = .ok rows)
    (hemp : filter_df rows sids ots = []) :
    ∃ l, (get_omfs fs fps sids ots).result = .ok l ∧
      l.length = fps.length ∧ l.get? i = some none ∧ l.get? i ≠ some (some 0) := by
  obtain ⟨hr, ho⟩ := get_omfs_ok fs fps sids ots (fun fp _ m => hfs fp m)
  refine ⟨fps.map (omf_step fs sids ots), ho, by simp, ?_, ?_⟩
  · simp [List.getElem?_map, List.getElem?_eq_getElem hi, omf_step, hok, hemp, seriesMean]
  · simp [List.getElem?_map, List.getElem?_eq_getElem hi, omf_step, hok, hemp, seriesMean]

theorem empty_filter_records_marker_not_zero_witness :
    ∃ l, (get_omfs (fun _ => .ok [⟨"KDEN", 187, 2⟩]) ["p"] (some ["KSLC"]) none).result = .ok l ∧
      l.length = 1 ∧ l.get? 0 = some none ∧ l.get? 0 ≠ some (some 0) :=
  empty_filter_records_marker_not_zero (fun _ => .ok [⟨"KDEN", 187, 2⟩]) ["p"]
    (some ["KSLC"]) none 0 [⟨"KDEN", 187, 2⟩] (by decide) (fun p m => by simp)
    (by simp) (by decide)

/-- C4: a successfully read file whose filtered row set is non-empty
records the arithmetic mean (sum divided by count) of the filtered
adjusted-omf values at its position. -/
theorem nonempty_filter_records_arithmetic_mean
    (fs : FS) (fps : List String) (sids : Option (List String)) (ots : Option (List Int))
    (i : Nat) (rows : List Row) (hi : i < fps.length)
    (hfs : ∀ p m, fs p ≠ .failed m)
    (hok : fs fps[i] = .ok rows)
    (hne : filter_df rows sids ots ≠ []) :
    ∃ l, (get_omfs fs fps sids ots).result = .ok l ∧
      l.length = fps.length ∧
      l.get? i = some (some ((filter_df rows sids ots).sum /
        ((filter_df rows sids ots).length : ℚ))) := by
  obtain ⟨hr, ho⟩ := get_omfs_ok fs fps sids ots (fun fp _ m => hfs fp m)
  refine ⟨fps.map (omf_step fs sids ots), ho, by simp, ?_⟩
  simp [List.getElem?_map, List.getElem?_eq_getElem hi, omf_step, hok, seriesMean, hne]

theorem nonempty_filter_records_arithmetic_mean_witness :
    ∃ l, (get_omfs (fun _ => .ok [⟨"s", 187, 1⟩, ⟨"s", 187, 3⟩, ⟨"s", 187, 5⟩])
        ["p"] none none).result = .ok l ∧
      l.get? 0 = some (some 3) := by
  obtain ⟨l, hok, hlen, hval⟩ :=
    nonempty_filter_records_arithmetic_mean
      (fun _ => .ok [⟨"s", 187, 1⟩, ⟨"s", 187, 3⟩, ⟨"s", 187, 5⟩]) ["p"] none none 0
      [⟨"s", 187, 1⟩, ⟨"s", 187, 3⟩, ⟨"s", 187, 5⟩] (by decide) (fun p m => by simp)
      (by simp) (by decide)
  refine ⟨l, hok, ?_⟩
  rw [hval]
  norm_num [filter_df]

/-- C1: for every valid mode and hour-resolution range with start ≤ end
(and a run with no unexpected reader error, so the extraction returns),
every produced series has one cell per hourly timestamp of the inclusive
range — length `numHourly`, no sparse representation — and mode "both"
produces exactly the two labels "ges" and "anl", in that insertion
order, each extracted by its own `get_omfs` pass. -/
theorem series_length_matches_range_and_both_labels
    (fs : FS) (path var anl_ges : String) (s_time f_time : DateTime)
    (station_ids : Option (List String)) (obs_types : Option (List Int))
    (hmode : anl_ges = "anl" ∨ anl_ges = "ges" ∨ anl_ges = "both")
    (hle : toHours s_time ≤ toHours f_time)
    (hfs : ∀ p m, fs p ≠ .failed m) :
    ∃ ser, (buildSeries fs path var anl_ges (dateRange s_time f_time)
        station_ids obs_types).2.2 = .ok ser ∧
      (∀ kd ∈ ser, kd.2.length = numHourly s_time f_time) ∧
      (anl_ges = "both" → ser.map Prod.fst = ["ges", "anl"]) := by
  have hg := get_omfs_ok fs (get_gsi_fps path var "ges" (dateRange s_time f_time))
    station_ids obs_types (fun fp _ m => hfs fp m)
  have ha := get_omfs_ok fs (get_gsi_fps path var "anl" (dateRange s_time f_time))
    station_ids obs_types (fun fp _ m => hfs fp m)
  have hlen : ∀ ag : String,
      ((get_gsi_fps path var ag (dateRange s_time f_time)).map
        (omf_step fs station_ids obs_types)).length = numHourly s_time f_time := by
    intro ag
    simp [get_gsi_fps_length, dateRange_length _ _ hle]
  rcases hmode with h | h | h <;> subst h
  · refine ⟨[("anl", (get_gsi_fps path var "anl" (dateRange s_time f_time)).map
      (omf_step fs station_ids obs_types))], ?_, ?_, ?_⟩
    · simp [buildSeries, ha.2]
    · intro kd hkd
      simp only [List.mem_singleton] at hkd
      subst hkd
      exact hlen "anl"
    · intro hboth
      exact absurd hboth (by decide)
  · refine ⟨[("ges", (get_gsi_fps path var "ges" (dateRange s_time f_time)).map
      (omf_step fs station_ids obs_types))], ?_, ?_, ?_⟩
    · simp [buildSeries, hg.2]
    · intro kd hkd
      simp only [List.mem_singleton] at hkd
      subst hkd
      exact hlen "ges"
    · intro hboth
      exact absurd hboth (by decide)
  · refine ⟨[("ges", (get_gsi_fps path var "ges" (dateRange s_time f_time)).map
        (omf_step fs station_ids obs_types)),
      ("anl", (get_gsi_fps path var "anl" (dateRange s_time f_time)).map
        (omf_step fs station_ids obs_types))], ?_, ?_, ?_⟩
    · simp [buildSeries, hg.2, ha.2]
    · intro kd hkd
      simp only [List.mem_cons, List.not_mem_nil, or_false] at hkd
      rcases hkd with rfl | rfl
      · exact hlen "ges"
      · exact hlen "anl"
    · intro _
      rfl

theorem series_length_matches_range_and_both_labels_witness :
    toHours (⟨2024, 1, 1, 22⟩ : DateTime) ≤ toHours (⟨2024, 1, 2, 1⟩ : DateTime) ∧
    ∃ ser, (buildSeries (fun _ => .notFound) "/d" "t" "both"
        (dateRange ⟨2024, 1, 1, 22⟩ ⟨2024, 1, 2, 1⟩) none none).2.2 = .ok ser ∧
      (∀ kd ∈ ser, kd.2.length = numHourly ⟨2024, 1, 1, 22⟩ ⟨2024, 1, 2, 1⟩) ∧
      ("both" = "both" → ser.map Prod.fst = ["ges", "anl"]) :=
  ⟨by decide,
    series_length_matches_range_and_both_labels (fun _ => .notFound) "/d" "t" "both"
      ⟨2024, 1, 1, 22⟩ ⟨2024, 1, 2, 1⟩ none none (by decide) (by decide)
      (fun p m => by simp)⟩

/-- C6: at the first position whose read fails with anything other than
file-not-found, the extractor prints the error message (last printed
line) and aborts with that error: reads stop at that position (no later
path is opened) and no series — partial or otherwise — is returned. -/
theorem unexpected_error_logged_and_aborts
    (fs : FS) (fps : List String) (sids : Option (List String)) (ots : Option (List Int))
    (i : Nat) (msg : String) (hi : i < fps.length)
    (hpre : ∀ j, j < i → (hj : j < fps.length) → ∀ m, fs fps[j] ≠ .failed m)
    (hf : fs fps[i] = .failed msg) :
    (get_omfs fs fps sids ots).reads = fps.take (i + 1) ∧
    (get_omfs fs fps sids ots).result = .error (.readError msg) ∧
    ∃ pre, (get_omfs fs fps sids ots).prints = pre ++ ["Unknown error occurred: " ++ msg] := by
  induction fps generalizing i with
  | nil => simp at hi
  | cons fp rest ih =>
    cases i with
    | zero =>
      simp only [List.getElem_cons_zero] at hf
      refine ⟨?_, ?_, [], ?_⟩ <;> simp [get_omfs, hf]
    | succ n =>
      have h0 : ∀ m, fs fp ≠ .failed m := by
        intro m
        have := hpre 0 (Nat.succ_pos n) (by simp) m
        simpa using this
      have hi' : n < rest.length := by simpa using hi
      have hf' : fs rest[n] = .failed msg := by simpa using hf
      have hpre' : ∀ j, j < n → (hj : j < rest.length) → ∀ m, fs rest[j] ≠ .failed m := by
        intro j hj hj2 m
        have := hpre (j + 1) (by omega) (by simpa using Nat.succ_lt_succ hj2) m
        simpa using this
      obtain ⟨a1, a2, pre, a3⟩ := ih n hi' hpre' hf'
      cases hcase : fs fp with
      | failed m => exact absurd hcase (h0 m)
      | notFound =>
        refine ⟨?_, ?_, pre, ?_⟩ <;> simp [get_omfs, hcase, a1, a2, a3, Except.map]
      | ok rows =>
        refine ⟨?_, ?_,
          (if (filter_df rows sids ots).length = 0
            then ["Filter combination yields no results"] else []) ++ pre, ?_⟩ <;>
          simp [get_omfs, hcase, a1, a2, a3, Except.map]

theorem unexpected_error_logged_and_aborts_witness :
    (get_omfs (fun p => if p = "c" then .failed "boom" else .notFound)
      ["a", "b", "c", "d"] none none).reads = ["a", "b", "c"] ∧
    (get_omfs (fun p => if p = "c" then .failed "boom" else .notFound)
      ["a", "b", "c", "d"] none none).result = .error (.readError "boom") ∧
    ∃ pre, (get_omfs (fun p => if p = "c" then .failed "boom" else .notFound)
      ["a", "b", "c", "d"] none none).prints = pre ++ ["Unknown error occurred: " ++ "boom"] :=
  unexpected_error_logged_and_aborts (fun p => if p = "c" then .failed "boom" else .notFound)
    ["a", "b", "c", "d"] none none 2 "boom" (by decide)
    (by intro j hj hj2 m; interval_cases j <;> simp) (by decide)

/-- C7: a mode string outside anl/ges/both is rejected immediately — for
every filesystem oracle and every input, the result is the
invalid-argument error with no read attempted, nothing printed and no
other work performed (the outcome does not depend on the oracle or the
time range at all). -/
theorem invalid_mode_rejected_before_any_work
    (fs : FS) (path var anl_ges : String) (s_time f_time : DateTime)
    (station_ids : Option (List String)) (obs_types : Option (List Int))
    (h1 : anl_ges ≠ "anl") (h2 : anl_ges ≠ "ges") (h3 : anl_ges ≠ "both") :
    plot_time_series fs path var anl_ges s_time f_time station_ids obs_types =
      ⟨[], [], .error (.invalidArgument anl_ges)⟩ := by
  simp [plot_time_series, h1, h2, h3]

theorem invalid_mode_rejected_before_any_work_witness :
    plot_time_series (fun _ => .ok [⟨"KDEN", 187, 2⟩]) "/d" "t" "xyz"
      ⟨2024, 1, 1, 0⟩ ⟨2024, 1, 1, 2⟩ none none =
      ⟨[], [], .error (.invalidArgument "xyz")⟩ :=
  invalid_mode_rejected_before_any_work (fun _ => .ok [⟨"KDEN", 187, 2⟩]) "/d" "t" "xyz"
    ⟨2024, 1, 1, 0⟩ ⟨2024, 1, 1, 2⟩ none none (by decide) (by decide) (by decide)

/-- C8: a variable outside the fixed display lookup (keys "t", "ps",
"q") makes the plot stage fail with the unknown-variable condition — no
chart with blank display name or unit label is produced. -/
theorem unknown_variable_fails_plot
    (series : List (String × List (Option ℚ))) (times : List DateTime) (var : String)
    (h1 : var ≠ "t") (h2 : var ≠ "ps") (h3 : var ≠ "q") :
    make_plot series times var = .error (.unknownVariable var) := by
  simp [make_plot, units_mapping, h1, h2, h3]

theorem unknown_variable_fails_plot_witness :
    make_plot [("ges", [some 1])] [⟨2024, 1, 1, 0⟩] "xyz" =
      .error (.unknownVariable "xyz") :=
  unknown_variable_fails_plot [("ges", [some 1])] [⟨2024, 1, 1, 0⟩] "xyz"
    (by decide) (by decide) (by decide)

/-- Recognizer for scatter (NaN-highlight) commands in a plot trace. -/
def isScatterCmd : PlotCmd → Bool
  | .scatter _ _ _ _ => true
  | _ => false

/-- The legend label attached to a plot command (empty for the unlabeled
commands). -/
def cmdLabel : PlotCmd → String
  | .line _ _ _ lab => lab
  | .scatter _ _ _ lab => lab
  | .axhline _ _ _ lab => lab
  | _ => ""

/-- The NaN-highlight scatter `make_plot` emits for one series: the
timestamps at the marker positions, all at height zero, colored red,
labeled "No Data". -/
def scatter_of (times : List DateTime) (kd : String × List (Option ℚ)) : PlotCmd :=
  .scatter (nan_times times kd.2) (List.replicate (countNaN kd.2) 0) "red" "No Data"

lemma isScatterCmd_line (xs : List DateTime) (ys : List (Option Rat)) (c : Char)
    (lab : String) : isScatterCmd (.line xs ys c lab) = false := rfl

lemma isScatterCmd_scatter (xs : List DateTime) (ys : List Rat) (c lab : String) :
    isScatterCmd (.scatter xs ys c lab) = true := rfl

/-- The scatter commands a successful series loop emits are exactly one
NaN-highlight per series, in series order. -/
lemma plotSeriesLoop_scatters (times : List DateTime) (ser : List (String × List (Option ℚ)))
    (ci : Nat) (mv : Option ℚ) (cmds : List PlotCmd) (mv2 : Option ℚ)
    (h : plotSeriesLoop times ser ci mv = .ok (cmds, mv2)) :
    cmds.filter (fun c => isScatterCmd c) = ser.map (scatter_of times) := by
  induction ser generalizing ci mv cmds mv2 with
  | nil =>
    simp [plotSeriesLoop] at h
    simp [h.1]
  | cons kd rest ih =>
    obtain ⟨key, data⟩ := kd
    rw [plotSeriesLoop] at h
    split at h
    · simp at h
    · dsimp only at h
      split at h
      · simp at h
      · rename_i hrec
        simp only [Except.ok.injEq, Prod.mk.injEq] at h
        obtain ⟨hcmds, hmv⟩ := h
        subst hcmds
        simp [List.filter_cons, isScatterCmd_line, isScatterCmd_scatter, scatter_of]
        exact ih _ _ _ _ hrec

/-- C9: in every chart the plot stage renders, the scatter commands are
exactly one NaN-highlight per series, in series order, each placing its
series' marker positions at height zero; and every one of them carries
the same single legend label "No Data", whatever and however many the
series labels are. -/
theorem nan_highlights_single_no_data_label (series : List (String × List (Option ℚ)))
    (times : List DateTime) (var : String) (cmds : List PlotCmd)
    (h : make_plot series times var = .ok cmds) :
    cmds.filter (fun c => isScatterCmd c) = series.map (scatter_of times) ∧
    ∀ c ∈ cmds, isScatterCmd c = true → cmdLabel c = "No Data" := by
  have hfilter : cmds.filter (fun c => isScatterCmd c) = series.map (scatter_of times) := by
    rw [make_plot] at h
    split at h
    · simp at h
    · split at h
      · simp at h
      · rename_i hloop
        simp only [Except.ok.injEq] at h
        subst h
        have hsc := plotSeriesLoop_scatters _ _ _ _ _ _ hloop
        simpa [List.filter_append, List.filter_cons, isScatterCmd_line, isScatterCmd_scatter,
          isScatterCmd] using hsc
  refine ⟨hfilter, ?_⟩
  intro c hc hs
  have hmem : c ∈ cmds.filter (fun c => isScatterCmd c) := List.mem_filter.mpr ⟨hc, hs⟩
  rw [hfilter] at hmem
  obtain ⟨kd, _, hceq⟩ := List.mem_map.mp hmem
  rw [← hceq]
  rfl

/-- A concrete rendered trace: two series, each of one all-missing cell,
over a one-timestamp axis. -/
def noDataFixtureCmds : List PlotCmd :=
  [.figure 10 5,
   .line [⟨2024, 1, 1, 0⟩] [none] 'b' "ges",
   .scatter [⟨2024, 1, 1, 0⟩] [0] "red" "No Data",
   .line [⟨2024, 1, 1, 0⟩] [none] 'g' "anl",
   .scatter [⟨2024, 1, 1, 0⟩] [0] "red" "No Data",
   .axhline 0 "r" "--" "Zero",
   .ylim none none,
   .ylabel "Degrees Fahrenheit",
   .title "Temperature DA Time Series Plot",
   .grid, .legend, .xticksRotation 45, .showFig]

theorem nan_highlights_single_no_data_label_witness :
    noDataFixtureCmds.filter (fun c => isScatterCmd c) =
      ([("ges", [none]), ("anl", [none])] :
        List (String × List (Option ℚ))).map (scatter_of [⟨2024, 1, 1, 0⟩]) ∧
    ∀ c ∈ noDataFixtureCmds, isScatterCmd c = true → cmdLabel c = "No Data" :=
  nan_highlights_single_no_data_label [("ges", [none]), ("anl", [none])]
    [⟨2024, 1, 1, 0⟩] "t" noDataFixtureCmds (by decide)

/-- C10: with start after end, the entry point performs no input
rejection: the expanded hourly axis is empty, no file read is attempted,
every requested series is the empty series, and the call fails only
inside the plot stage, when the maximum-absolute-value bound is reduced
over an empty series (the zero-size reduction error) — raising neither
the invalid-argument nor the parse error. -/
theorem reversed_range_fails_in_plot_stage
    (fs : FS) (path var anl_ges : String) (s_time f_time : DateTime)
    (station_ids : Option (List String)) (obs_types : Option (List Int))
    (hmode : anl_ges = "anl" ∨ anl_ges = "ges" ∨ anl_ges = "both")
    (hvar : units_mapping var ≠ none)
    (hgt : toHours f_time < toHours s_time) :
    dateRange s_time f_time = [] ∧
    (∃ ser, (buildSeries fs path var anl_ges (dateRange s_time f_time)
        station_ids obs_types).2.2 = .ok ser ∧ ser ≠ [] ∧ ∀ kd ∈ ser, kd.2 = []) ∧
    plot_time_series fs path var anl_ges s_time f_time station_ids obs_types =
      ⟨[], [], .error .zeroSizeReduction⟩ ∧
    (∀ m, (plot_time_series fs path var anl_ges s_time f_time station_ids obs_types).result ≠
      .error (.invalidArgument m)) ∧
    (∀ m, (plot_time_series fs path var anl_ges s_time f_time station_ids obs_types).result ≠
      .error (.parseError m)) := by
  have hdr : dateRange s_time f_time = [] := by
    rw [dateRange, if_neg (by omega)]
  obtain ⟨p, hp⟩ : ∃ p, units_mapping var = some p := by
    cases hu : units_mapping var with
    | none => exact absurd hu hvar
    | some p => exact ⟨p, rfl⟩
  obtain ⟨nm, un⟩ := p
  have hrun : plot_time_series fs path var anl_ges s_time f_time station_ids obs_types =
      ⟨[], [], .error .zeroSizeReduction⟩ := by
    rcases hmode with h | h | h <;> subst h <;>
      simp [plot_time_series, buildSeries, hdr, make_plot, hp, plotSeriesLoop, np_nanmax,
        get_gsi_fps, get_omfs]
  refine ⟨hdr, ?_, hrun, ?_, ?_⟩
  · rcases hmode with h | h | h <;> subst h
    · refine ⟨[("anl", [])], ?_, ?_, ?_⟩
      · simp [buildSeries, hdr, get_gsi_fps, get_omfs]
      · simp
      · intro kd hkd
        simp only [List.mem_singleton] at hkd
        subst hkd
        rfl
    · refine ⟨[("ges", [])], ?_, ?_, ?_⟩
      · simp [buildSeries, hdr, get_gsi_fps, get_omfs]
      · simp
      · intro kd hkd
        simp only [List.mem_singleton] at hkd
        subst hkd
        rfl
    · refine ⟨[("ges", []), ("anl", [])], ?_, ?_, ?_⟩
      · simp [buildSeries, hdr, get_gsi_fps, get_omfs]
      · simp
      · intro kd hkd
        simp only [List.mem_cons, List.not_mem_nil, or_false] at hkd
        rcases hkd with rfl | rfl <;> rfl
  · intro m
    rw [hrun]
    simp
  · intro m
    rw [hrun]
    simp

theorem reversed_range_fails_in_plot_stage_witness :
    dateRange ⟨2024, 1, 2, 0⟩ ⟨2024, 1, 1, 0⟩ = [] ∧
    (∃ ser, (buildSeries (fun _ => .notFound) "/d" "t" "ges"
        (dateRange ⟨2024, 1, 2, 0⟩ ⟨2024, 1, 1, 0⟩) none none).2.2 = .ok ser ∧
      ser ≠ [] ∧ ∀ kd ∈ ser, kd.2 = []) ∧
    plot_time_series (fun _ => .notFound) "/d" "t" "ges"
      ⟨2024, 1, 2, 0⟩ ⟨2024, 1, 1, 0⟩ none none = ⟨[], [], .error .zeroSizeReduction⟩ ∧
    (∀ m, (plot_time_series (fun _ => .notFound) "/d" "t" "ges"
      ⟨2024, 1, 2, 0⟩ ⟨2024, 1, 1, 0⟩ none none).result ≠ .error (.invalidArgument m)) ∧
    (∀ m, (plot_time_series (fun _ => .notFound) "/d" "t" "ges"
      ⟨2024, 1, 2, 0⟩ ⟨2024, 1, 1, 0⟩ none none).result ≠ .error (.parseError m)) :=
  reversed_range_fails_in_plot_stage (fun _ => .notFound) "/d" "t" "ges"
    ⟨2024, 1, 2, 0⟩ ⟨2024, 1, 1, 0⟩ none none (Or.inr (Or.inl rfl)) (by decide) (by decide)

end PyDAmonitor
